import Mathlib

/-!
Shallow embedding of `src/es-app/src/GamelistDB.cpp` (EmulationStation gamelist
database). The database is modelled as a list of rows, SQLite statement
execution as pure state transformation, and the pieces of the environment the
file calls into (boost::filesystem, the SQLite statement compiler, the metadata
catalog of `MetaData.h`, and the path helpers of `Util.cpp`) as explicit Lean
definitions, each documented at its declaration.
-/

set_option autoImplicit false
set_option linter.unusedVariables false

namespace GamelistDB

/-- Strips an exact character-list prefix; returns the remaining characters when
the first list is a prefix of the second, and `none` otherwise. Helper for the
path functions below. -/
def dropPre : List Char → List Char → Option (List Char)
  | [], s => some s
  | _, [] => none
  | c :: p, d :: s => if c = d then dropPre p s else none

/-- Modelled from the spec: `makeRelativePath(path, relativeTo, false)` from
`Util.cpp` is not under `src/`; the spec (§3) defines the file identifier as the
path expressed relative to the collection root when inside it, otherwise the
path unchanged, and (§4.3, §4.5) as carrying a leading relative-path marker.
The marker form `"./" ++ rest` is corroborated inside `src/` by
`GamelistDB::updateExists` (line 279, `path[0] == '.'`) and
`GamelistDB::exportXML` (lines 425–426, rewriting `"./x"` to `root ++ "/x"`).
`pathToFileID` (GamelistDB.cpp lines 9–12) applies this to forward-slash path
strings. -/
def pathToFileID (path relativeTo : String) : String :=
  match dropPre (relativeTo ++ "/").data path.data with
  | some rest => String.mk ('.' :: '/' :: rest)
  | none => path

/-- Modelled from the spec: `resolvePath(p, relativeTo, allowHome)` from
`Util.cpp` is not under `src/`; per the spec (§4.3) an identifier starting with
the relative-path marker is joined to the collection root and any other
identifier is returned as-is. A first component that is exactly `"."` marks a
relative identifier; home-directory (`~`) expansion is not modelled. -/
def resolvePath (p relativeTo : String) : String :=
  match p.data with
  | ['.'] => relativeTo
  | '.' :: '/' :: rest => String.mk (relativeTo.data ++ '/' :: rest)
  | _ => p

/-- Embeds `fileIDToPath` (GamelistDB.cpp lines 19–22): resolves a stored file
identifier back to an absolute path against the system's start path. -/
def fileIDToPath (fileID relativeTo : String) : String :=
  resolvePath fileID relativeTo

/-- Splits a character list at every occurrence of a separator character. -/
def splitOnChar (sep : Char) : List Char → List (List Char)
  | [] => [[]]
  | c :: rest =>
    match splitOnChar sep rest with
    | [] => [[c]]
    | h :: t => if c = sep then [] :: h :: t else (c :: h) :: t

/-- Joins path components with `'/'`. -/
def joinSlash : List (List Char) → List Char
  | [] => []
  | [x] => x
  | x :: rest => x ++ '/' :: joinSlash rest

/-- Removes `"."` components from a slash-separated path, modelling the
filesystem's treatment of `a/./b` and `a/b` as the same file. -/
def normPath (p : String) : String :=
  String.mk (joinSlash ((splitOnChar '/' p.data).filter (fun c => !(c == ['.']))))

/-- Models `boost::filesystem::exists`: the filesystem is a list of paths of the
regular files present on disk, and a path exists when it names one of them up to
`"."`-component normalization. -/
def fs_exists (fsList : List String) (p : String) : Bool :=
  (fsList.map normPath).contains (normPath p)

/-- Suffix of a character list starting at its last `'.'`, if any. -/
def extSuffix : List Char → Option (List Char)
  | [] => none
  | c :: rest =>
    match extSuffix rest with
    | some e => some e
    | none => if c = '.' then some (c :: rest) else none

/-- Models `boost::filesystem::path::extension()` on a filename: the substring
from the last dot (inclusive), or `""` when the name has no dot. -/
def extensionOf (name : String) : String :=
  match extSuffix name.data with
  | some e => String.mk e
  | none => ""

/-- Metadata value types of `MetaData.h` (`MD_STRING`, `MD_INT`, ...). -/
inductive MDType : Type where
  | md_string
  | md_multiline_string
  | md_image_path
  | md_int
  | md_float
  | md_rating
  | md_date
  | md_time
deriving DecidableEq

/-- Metadata field declaration (`MetaDataDecl` of `MetaData.h`): key, value
type, and textual default. -/
structure MetaDataDecl : Type where
  key : String
  type : MDType
  defaultValue : String
deriving DecidableEq

/-- Discriminator between the game and folder metadata catalogs
(`MetaDataListType` of `MetaData.h`). -/
inductive MetaDataListType : Type where
  | game_metadata
  | folder_metadata
deriving DecidableEq

/-- Modelled from the spec: the declarative field catalog (`getMDDMap()` of
`MetaData.cpp`, not under `src/`). The spec (§3) gives each field a key, a
semantic type and an optional textual default; a small representative catalog
is fixed here. -/
def gameMDD : List MetaDataDecl :=
  [⟨"name", MDType.md_string, ""⟩,
   ⟨"desc", MDType.md_multiline_string, ""⟩,
   ⟨"image", MDType.md_image_path, ""⟩,
   ⟨"rating", MDType.md_rating, "0"⟩]

/-- Modelled from the spec: the folder catalog. The spec (§3) says the two
catalogs share one table, and `GamelistDB::setFileData` binds one SQL parameter
per declaration of the record's own catalog against a table whose columns come
from the game catalog (`createTables`, line 122–123), so the two catalogs are
modelled as identical. -/
def folderMDD : List MetaDataDecl := gameMDD

/-- Embeds `getMDDMap().at(type)`: catalog selection by discriminator. -/
def getMDD : MetaDataListType → List MetaDataDecl
  | MetaDataListType.game_metadata => gameMDD
  | MetaDataListType.folder_metadata => folderMDD

/-- Key-value update on an association list: replaces the first binding of the
key, or appends a new binding when absent. -/
def setKV : List (String × String) → String → String → List (String × String)
  | [], k, v => [(k, v)]
  | (k', v') :: rest, k, v =>
    if k' = k then (k', v) :: rest else (k', v') :: setKV rest k v

/-- Metadata map (`MetaDataMap` of `MetaData.h`): a catalog discriminator plus
string-encoded field values. -/
structure MetaDataMap : Type where
  type : MetaDataListType
  values : List (String × String)
deriving DecidableEq

/-- Embeds `MetaDataMap::set`. -/
def MetaDataMap.set (m : MetaDataMap) (k v : String) : MetaDataMap :=
  { m with values := setKV m.values k v }

/-- Embeds `MetaDataMap::get`: the stored string for a key (empty when the key
is unset). -/
def MetaDataMap.get (m : MetaDataMap) (k : String) : String :=
  match m.values.lookup k with
  | some v => v
  | none => ""

/-- Modelled from the spec: a fresh `MetaDataMap(type)` carries the catalog's
defaults (§4.4: fields absent in the markup keep the catalog's default). -/
def MetaDataMap.init (t : MetaDataListType) : MetaDataMap :=
  ⟨t, (getMDD t).map (fun d => (d.key, d.defaultValue))⟩

/-- Modelled from the spec: value of `FileType::GAME` (declared in
`FileData.h`, not under `src/`); only its distinctness from
`FileType_FOLDER` matters. -/
def FileType_GAME : Nat := 1

/-- Modelled from the spec: value of `FileType::FOLDER` (declared in
`FileData.h`, not under `src/`). -/
def FileType_FOLDER : Nat := 2

/-- Row of the `files` table created by `GamelistDB::createTables` (lines
120–175): fixed columns `fileid`, `systemid`, `filetype`, `fileexists`, plus
one nullable text-encoded column per game-catalog declaration. -/
structure Row : Type where
  fileid : String
  systemid : String
  filetype : Nat
  fileexists : Option Bool
  metadata : List (String × Option String)
deriving DecidableEq

/-- Contents of the `files` table, in storage order. -/
abbrev Store : Type := List Row

/-- Primary-key match (`fileid`, `systemid`) against a row. -/
def rowMatches (fid sid : String) (r : Row) : Bool :=
  r.fileid == fid && r.systemid == sid

/-- Point lookup by the table's primary key. -/
def lookupRow (st : Store) (fid sid : String) : Option Row :=
  st.find? (rowMatches fid sid)

/-- Column default per `createTables` (lines 131–169): string, int and float
columns get a `DEFAULT` clause only when the declared default is non-empty;
`DATE`/`DATETIME` columns get none (the `TODO default` comments at lines
161 and 164); a column without a default is `NULL` in a bare inserted row. -/
def colDefault (d : MetaDataDecl) : Option String :=
  match d.type with
  | MDType.md_date => none
  | MDType.md_time => none
  | _ => if d.defaultValue.isEmpty then none else some d.defaultValue

/-- Row produced by the scanner's bare insert
`INSERT OR IGNORE INTO files (fileid, systemid, filetype) VALUES (...)`
(line 244): `fileexists` is not bound and stays `NULL`; metadata columns take
their schema defaults. -/
def bareRow (fid sid : String) (ft : Nat) : Row :=
  ⟨fid, sid, ft, none, gameMDD.map (fun d => (d.key, colDefault d))⟩

/-- Models executing the prepared `INSERT OR IGNORE` statement: a row is
appended only when no row with the same primary key exists; otherwise the
statement is a no-op (SQLite `OR IGNORE` conflict resolution). -/
def insertOrIgnore (st : Store) (fid sid : String) (ft : Nat) : Store :=
  match lookupRow st fid sid with
  | some _ => st
  | none => st ++ [bareRow fid sid ft]

/-- Canonical text of an integer literal after SQLite affinity conversion:
leading zeros are dropped (`007` denotes the integer 7, whose TEXT form is
`"7"`), an all-zero numeral denotes 0. -/
def canonNumeral (s : String) : String :=
  match s.data.dropWhile (fun c => c == '0') with
  | [] => "0"
  | l => String.mk l

/-- Canonical-decimal reading of a stored text under SQLite NUMERIC affinity:
`some n` when the text is a plain decimal numeral without leading zeros.
Texts in other numeric formats (signs, decimals, exponents, surrounding
whitespace) would also convert in SQLite but are not modelled and read as
non-numeric here; no theorem below depends on them. -/
def canonNat? (s : String) : Option Nat :=
  if !s.data.isEmpty && s.data.all Char.isDigit
      && (s == "0" || s.data.head? != some '0') then
    some (s.data.foldl (fun n c => n * 10 + (c.toNat - '0'.toNat)) 0)
  else none

/-- Columns whose declared SQL type is a text type (`VARCHAR`, per
`createTables` lines 139–145), and which therefore carry TEXT affinity. -/
def isTextType : MDType → Bool
  | MDType.md_string => true
  | MDType.md_multiline_string => true
  | MDType.md_image_path => true
  | _ => false

/-- Names of the columns of the `files` table (`createTables`, lines
126–171): the four fixed columns plus one column per catalog declaration. -/
def isColumnName (name : String) : Bool :=
  name == "fileid" || name == "systemid" || name == "filetype" || name == "fileexists"
    || (gameMDD.map MetaDataDecl.key).contains name

/-- Classification of the collection name spliced verbatim into the statement
text by `addMissingFiles` (line 244) and `updateExists` (lines 261, 265). -/
inductive SpliceExpr : Type where
  | literal (canon : String)
  | column (c : String)
  | malformed
deriving DecidableEq

/-- Models `sqlite3_prepare_v2`'s treatment of the name spliced into the
statement text as a SQL expression. A digit-only name is an integer literal,
carried as the canonical text its affinity conversion produces (bounded so the
value stays an exact integer; longer numerals overflow to floating point in
SQLite and are not modelled). A name naming one of the table's columns is a
column reference. Any other identifier fails to resolve against the table
("no such column") and any name that is not an identifier or numeral — e.g.
one containing a space — is a syntax error; both make preparation throw.
(Names in further lexical forms SQLite accepts, such as quoted strings, are
outside the model; no claim instantiates them.) -/
def classifySplice (name : String) : SpliceExpr :=
  if !name.data.isEmpty && name.data.all Char.isDigit && decide (name.length ≤ 18) then
    SpliceExpr.literal (canonNumeral name)
  else if isColumnName name then SpliceExpr.column name
  else SpliceExpr.malformed

/-- Evaluates the spliced comparison `systemid = <column c>` on one row,
following SQLite's affinity rules for this table: against TEXT-affinity
columns (`fileid`, `systemid`, `VARCHAR` catalog columns) the stored texts
compare directly, a NULL operand making the comparison false; against
numeric-affinity columns (`filetype` INT, `fileexists` BOOLEAN, and the
remaining catalog columns) NUMERIC affinity is applied to the `systemid`
text, which matches when both operands read as the same canonical decimal
(see `canonNat?` for the disclosed restriction). -/
def columnCompare (r : Row) (c : String) : Bool :=
  if c == "fileid" then r.systemid == r.fileid
  else if c == "systemid" then true
  else if c == "filetype" then canonNat? r.systemid == some r.filetype
  else if c == "fileexists" then
    match r.fileexists with
    | none => false
    | some b => canonNat? r.systemid == some (if b then 1 else 0)
  else
    match gameMDD.find? (fun d => d.key == c) with
    | none => false
    | some d =>
      match r.metadata.lookup c with
      | some (some v) =>
        if isTextType d.type then r.systemid == v
        else
          match canonNat? r.systemid, canonNat? v with
          | some a, some b => a == b
          | _, _ => false
      | _ => false

/-- Evaluates the spliced `systemid = <name>` predicate of a prepared
statement on one row: a literal compares the stored `systemid` text against
the literal's canonical text, a column reference compares column against
column. The `malformed` case is unreachable — preparation already threw. -/
def spliceMatch (e : SpliceExpr) (r : Row) : Bool :=
  match e with
  | SpliceExpr.literal canon => r.systemid == canon
  | SpliceExpr.column c => columnCompare r c
  | SpliceExpr.malformed => false

/-- Failure modes surfaced as `DBException` by the RAII helpers:
`SQLPreparedStmt`'s constructor (line 31, statement compilation) and
`step`/`step_expected` (lines 37–42, statement execution). -/
inductive DBErr : Type where
  | prepare
  | step
deriving DecidableEq

/-- Embeds `add_file` (GamelistDB.cpp lines 186–199) plus the execution of the
scanner's prepared insert. The statement binds `?1 := fileid` and — copying the
source faithfully — binds `?2 := FileType::GAME` (line 191), ignoring the
`filetype` argument; the systemid slot holds the name spliced into the
statement text (line 244), which for an accepted numeric name stores the name
itself. `sqlite3_step` can fail at runtime (checked at line 194); the `faults`
list gives the indices of the step invocations that fail, `ctr` counts them,
and a failing step throws without writing its row. -/
def add_file (fileid : String) (filetype : Nat) (name : String)
    (faults : List Nat) (st : Store) (ctr : Nat) : Except (Store × Nat) (Store × Nat) :=
  if faults.contains ctr then Except.error (st, ctr + 1)
  else Except.ok (insertOrIgnore st fileid name FileType_GAME, ctr + 1)

mutual
/-- Directory tree entry, modelling what `boost::filesystem::directory_iterator`
enumerates: a regular file or a subdirectory with its own entries. The mutual
shape keeps the scan structurally recursive. -/
inductive FSEntry : Type where
  | file : String → FSEntry
  | dir : String → FSList → FSEntry
/-- Entries of one directory, in iteration order. -/
inductive FSList : Type where
  | nil : FSList
  | cons : FSEntry → FSList → FSList
end

/-- Embeds the directory loop of `populate_recursive` (lines 207–225) together
with the recursive call's epilogue: a subdirectory entry is recursed into and,
when that recursion reports a qualifying entry, the subdirectory itself is
inserted (lines 227–232 of the callee, inlined here in the `dir` branch); a
file entry whose extension is in the allowlist is inserted as a game. The
result carries the updated transaction state, the directory's `has_a_file`
flag, and the step counter. -/
def popLoop (relativeTo : String) (extensions : List String) (name : String) (faults : List Nat) :
    FSList → String → Store → Nat → Except (Store × Nat) (Store × Bool × Nat)
  | FSList.nil, _, st, ctr => Except.ok (st, false, ctr)
  | FSList.cons (FSEntry.dir n sub) rest, dirPath, st, ctr =>
    match popLoop relativeTo extensions name faults sub (dirPath ++ "/" ++ n) st ctr with
    | Except.error e => Except.error e
    | Except.ok (st1, has1, ctr1) =>
      match (if has1 then
               add_file (pathToFileID (dirPath ++ "/" ++ n) relativeTo) FileType_FOLDER
                 name faults st1 ctr1
             else Except.ok (st1, ctr1)) with
      | Except.error e => Except.error e
      | Except.ok (st2, ctr2) =>
        match popLoop relativeTo extensions name faults rest dirPath st2 ctr2 with
        | Except.error e => Except.error e
        | Except.ok (st3, has3, ctr3) => Except.ok (st3, has1 || has3, ctr3)
  | FSList.cons (FSEntry.file n) rest, dirPath, st, ctr =>
    if extensions.contains (extensionOf n) then
      match add_file (pathToFileID (dirPath ++ "/" ++ n) relativeTo) FileType_GAME
              name faults st ctr with
      | Except.error e => Except.error e
      | Except.ok (st1, ctr1) =>
        match popLoop relativeTo extensions name faults rest dirPath st1 ctr1 with
        | Except.error e => Except.error e
        | Except.ok (st2, has2, ctr2) => Except.ok (st2, true, ctr2)
    else popLoop relativeTo extensions name faults rest dirPath st ctr

/-- Embeds `populate_recursive` (lines 201–235) for a directory `start_dir`
holding `entries`: runs the loop and, when the directory contains at least one
qualifying entry, inserts the directory itself with `FileType::FOLDER`
(lines 227–232). -/
def populate_recursive (relativeTo : String) (extensions : List String) (name : String)
    (faults : List Nat) (start_dir : String) (entries : FSList) (st : Store) (ctr : Nat) :
    Except (Store × Nat) (Store × Bool × Nat) :=
  match popLoop relativeTo extensions name faults entries start_dir st ctr with
  | Except.error e => Except.error e
  | Except.ok (st1, has, ctr1) =>
    if has then
      match add_file (pathToFileID start_dir relativeTo) FileType_FOLDER name faults st1 ctr1 with
      | Except.error e => Except.error e
      | Except.ok (st2, ctr2) => Except.ok (st2, true, ctr2)
    else Except.ok (st1, false, ctr1)

/-- Embeds `GamelistDB::addMissingFiles` (lines 237–254). The insert statement
splices the collection name into its `VALUES` clause (line 244), where no
table columns are in scope: only a literal name prepares (its canonical text
becoming the stored `systemid`), while a column name or unresolvable word
makes preparation throw before the transaction begins, leaving the store
unchanged. Otherwise `BEGIN TRANSACTION` runs and `populate_recursive` fills
the transaction state. On success `transaction.commit()` publishes it; on a
step failure the exception unwinds through `SQLTransaction`'s destructor
(lines 80–83), which — because `mDB` is still set — calls `commit()` rather
than rolling back, so the partially populated transaction state is published
as well, and the error then propagates. -/
def addMissingFiles (name relativeTo : String) (extensions : List String)
    (entries : FSList) (faults : List Nat) (st : Store) : Except DBErr Unit × Store :=
  match classifySplice name with
  | SpliceExpr.literal canon =>
    match populate_recursive relativeTo extensions canon faults relativeTo entries st 0 with
    | Except.error (st1, _) => (Except.error DBErr.step, st1)
    | Except.ok (st1, _, _) => (Except.ok (), st1)
  | _ => (Except.error DBErr.prepare, st)

/-- Embeds the existence check of `updateExists` (lines 278–282): an identifier
whose first character is `'.'` is tested at `relativeTo + "/" + path`, any
other identifier is tested as-is. -/
def existsCheckFileID (fsList : List String) (relativeTo : String) (fid : String) : Bool :=
  match fid.data with
  | '.' :: _ => fs_exists fsList (relativeTo ++ "/" ++ fid)
  | _ => fs_exists fsList fid

/-- Models one execution of the prepared
`UPDATE files SET fileexists = ?1 WHERE fileid = ?2 AND systemid = <name>`
(line 265): every row matching both the bound identifier and the spliced
systemid comparison gets its `fileexists` column set; the `WHERE` clause is
evaluated on the row's pre-update values. -/
def updateRow (e : SpliceExpr) (fid : String) (flag : Bool) (st : Store) : Store :=
  st.map (fun r =>
    if r.fileid == fid && spliceMatch e r then { r with fileexists := some flag } else r)

/-- Embeds the read-check-update loop of `updateExists` (lines 274–288) over
the selected file identifiers. Each iteration steps the prepared `UPDATE`
with `step_expected(SQLITE_DONE)` (line 286), which can fail at runtime: the
`faults` list gives the indices of the step invocations that fail, `ctr`
counts them, and a failing step throws out of the loop without writing its
row, carrying the store as updated so far. -/
def updateLoop (e : SpliceExpr) (relativeTo : String) (fsList : List String)
    (faults : List Nat) : List String → Store → Nat → Except (Store × Nat) (Store × Nat)
  | [], st, ctr => Except.ok (st, ctr)
  | fid :: rest, st, ctr =>
    if faults.contains ctr then Except.error (st, ctr + 1)
    else
      updateLoop e relativeTo fsList faults rest
        (updateRow e fid (existsCheckFileID fsList relativeTo fid) st) (ctr + 1)

/-- Embeds `GamelistDB::updateExists` (lines 256–291). Both statements splice
the collection name into their text (lines 261, 265): an unresolvable or
malformed name makes preparation throw before the transaction begins, leaving
the store unchanged, while a literal or column-reference name prepares. Then
`SELECT fileid FROM files WHERE systemid = <name>` yields the identifiers of
the rows matching the spliced comparison, in storage order (modelled as a
snapshot of the pre-loop store; the loop touches only `fileexists`, which the
`SELECT` neither returns nor, for the names any theorem instantiates,
compares on), and the loop writes each row's existence flag. On success the
transaction commits; on a mid-loop step failure the exception unwinds through
`SQLTransaction`'s destructor (lines 80–83), which commits the partially
updated transaction state, and the error propagates. -/
def updateExists (name relativeTo : String) (fsList : List String) (faults : List Nat)
    (st : Store) : Except DBErr Unit × Store :=
  match classifySplice name with
  | SpliceExpr.malformed => (Except.error DBErr.prepare, st)
  | e =>
    match updateLoop e relativeTo fsList faults
        ((st.filter (spliceMatch e)).map Row.fileid) st 0 with
    | Except.error (st1, _) => (Except.error DBErr.step, st1)
    | Except.ok (st1, _) => (Except.ok (), st1)

/-- Row written by `GamelistDB::setFileData` (lines 315–344): the key columns
from the arguments, `filetype` bound as the boolean
`metadata.getType() == FOLDER_METADATA` (line 334), `fileexists` bound to 1
(line 335), and one bound text value per declaration of the record's catalog
(lines 337–341). -/
def rowOfMetaData (fid sid : String) (md : MetaDataMap) : Row :=
  ⟨fid, sid, if md.type == MetaDataListType.folder_metadata then 1 else 0, some true,
    (getMDD md.type).map (fun d => (d.key, some (md.get d.key)))⟩

/-- Embeds `GamelistDB::setFileData`: the statement is
`INSERT OR REPLACE INTO files VALUES (...)`, so an existing row with the same
primary key is deleted and the freshly bound row inserted. -/
def setFileData (fileID systemID : String) (metadata : MetaDataMap) (st : Store) : Store :=
  (st.filter (fun r => !(rowMatches fileID systemID r))) ++ [rowOfMetaData fileID systemID metadata]

/-- Embeds `GamelistDB::getFileData` (lines 293–313), faithfully including its
step check. The point `SELECT` is stepped with `step_expected(SQLITE_DONE)`
(line 299); when a row with the key exists the step yields `SQLITE_ROW`, the
expectation fails, and a `DBException` is thrown. When no row exists the step
yields `SQLITE_DONE`, the expectation passes, and the code proceeds to read
the columns of a row that is not there: `sqlite3_column_int(_, 1)` gives 0, so
the type is `GAME_METADATA`, and every `sqlite3_column_text` from column 2 on
gives `NULL` (passing `NULL` to `std::string` is undefined behaviour in C++;
the model keeps the observable control flow and reads empty strings), the loop
at lines 304–310 setting the keys `filetype`, `fileexists` and every catalog
key. -/
def getFileData (fileID systemID : String) (st : Store) : Except DBErr MetaDataMap :=
  match lookupRow st fileID systemID with
  | some _ => Except.error DBErr.step
  | none =>
    Except.ok ((getMDD MetaDataListType.game_metadata).foldl (fun m d => m.set d.key "")
      (((MetaDataMap.init MetaDataListType.game_metadata).set "filetype" "").set "fileexists" ""))

/-- Parsed `<game>`/`<folder>` node of a gamelist interchange document: tag,
text of the `<path>` child, and the remaining children as key-value pairs. -/
structure XMLNode : Type where
  tag : String
  path : String
  fields : List (String × String)
deriving DecidableEq

/-- Embeds the metadata-building loop of `importXML` (lines 385–399): starting
from a fresh map of the node's type, each catalog key present as a child node
is set, image-path values being resolved against the collection root first
(line 395). -/
def buildMetaData (t : MetaDataListType) (relativeTo : String)
    (fields : List (String × String)) : MetaDataMap :=
  (getMDD t).foldl
    (fun m d =>
      match fields.lookup d.key with
      | some v =>
        m.set d.key (if d.type == MDType.md_image_path then resolvePath v relativeTo else v)
      | none => m)
    (MetaDataMap.init t)

/-- Embeds the per-tag node loop of `importXML` (lines 373–405): each node's
path is resolved against the collection root; a path that does not exist on
disk is skipped with the skip counter incremented (lines 377–382); otherwise
the built record must have a non-empty `name` (the assertion at line 402,
modelled as an error) and is written through `setFileData` keyed by
`pathToFileID` of the resolved path. -/
def importNodes (name relativeTo : String) (fsList : List String) (t : MetaDataListType) :
    List XMLNode → Store → Nat → Except String (Store × Nat)
  | [], st, skip => Except.ok (st, skip)
  | node :: rest, st, skip =>
    let path := resolvePath node.path relativeTo
    if fs_exists fsList path then
      let mdl := buildMetaData t relativeTo node.fields
      if (mdl.get "name").isEmpty then Except.error "assertion failed: name is empty"
      else
        importNodes name relativeTo fsList t rest
          (setFileData (pathToFileID path relativeTo) name mdl st) skip
    else importNodes name relativeTo fsList t rest st (skip + 1)

/-- Embeds `GamelistDB::importXML` (lines 346–407) from the point where the
document has been located and parsed and the `<gameList>` root found (the
earlier failures at lines 350–360 throw before any store access): all `game`
nodes are processed first, then all `folder` nodes, threading the store and
the skip counter. -/
def importXML (name relativeTo : String) (fsList : List String) (doc : List XMLNode)
    (st : Store) : Except String (Store × Nat) :=
  match importNodes name relativeTo fsList MetaDataListType.game_metadata
      (doc.filter (fun node => node.tag == "game")) st 0 with
  | Except.error e => Except.error e
  | Except.ok (st1, skip1) =>
    importNodes name relativeTo fsList MetaDataListType.folder_metadata
      (doc.filter (fun node => node.tag == "folder")) st1 skip1

/-! Concrete scenario data used by several theorems: the spec's `/roms/nes`
collection with files `a.nes` and `sub/b.nes`, plus a flat two-file variant. -/

/-- Directory entries of `/roms/nes/sub`: the single file `b.nes`. -/
def nesSubEntries : FSList := FSList.cons (FSEntry.file "b.nes") FSList.nil

/-- Directory entries of `/roms/nes`: the file `a.nes` and the subdirectory
`sub`. -/
def nesEntries : FSList :=
  FSList.cons (FSEntry.file "a.nes")
    (FSList.cons (FSEntry.dir "sub" nesSubEntries) FSList.nil)

/-- Flat directory with two matching files, used to inject a step fault on the
second insert. -/
def flatEntries : FSList :=
  FSList.cons (FSEntry.file "a.nes") (FSList.cons (FSEntry.file "b.nes") FSList.nil)

/-! Helper lemmas. -/

/-- Stripping a list from itself followed by anything leaves the suffix. -/
lemma dropPre_self_append (p s : List Char) : dropPre p (p ++ s) = some s := by
  induction p with
  | nil => simp [dropPre]
  | cons c p ih => simp [dropPre, ih]

/-- Character-level form of `pathToFileID` on a path under the root: the
identifier is the marker `"./"` followed by the part after `root ++ "/"`. -/
lemma pathToFileID_append (relativeTo rest : String) :
    pathToFileID (relativeTo ++ "/" ++ rest) relativeTo = String.mk ('.' :: '/' :: rest.data) := by
  unfold pathToFileID
  have h : (relativeTo ++ "/" ++ rest).data = (relativeTo ++ "/").data ++ rest.data :=
    String.data_append _ _
  rw [h, dropPre_self_append]

/-- Resolving a marker-prefixed identifier joins it to the root. -/
lemma fileIDToPath_marker (relativeTo : String) (l : List Char) :
    fileIDToPath (String.mk ('.' :: '/' :: l)) relativeTo =
      String.mk (relativeTo.data ++ '/' :: l) := rfl

/-- Joining the root to a character suffix is string append through `"/"`. -/
lemma mk_data_append (relativeTo rest : String) :
    String.mk (relativeTo.data ++ '/' :: rest.data) = relativeTo ++ "/" ++ rest := by
  apply String.ext
  show relativeTo.data ++ '/' :: rest.data = ((relativeTo ++ "/") ++ rest).data
  rw [String.data_append, String.data_append]
  simp

/-! Claim theorems. -/

/-- C9: for every filesystem path actually under a collection root — written
`relativeTo ++ "/" ++ rest` — the identifier map and its inverse are mutual
inverses: `fileIDToPath (pathToFileID p root) root = p`, and applying
`pathToFileID` to the resolved form of an identifier produced from such a path
gives the identifier back. -/
theorem pathToFileID_fileIDToPath_inverse (relativeTo rest : String) :
    fileIDToPath (pathToFileID (relativeTo ++ "/" ++ rest) relativeTo) relativeTo
        = relativeTo ++ "/" ++ rest
  ∧ pathToFileID
        (fileIDToPath (pathToFileID (relativeTo ++ "/" ++ rest) relativeTo) relativeTo)
        relativeTo
      = pathToFileID (relativeTo ++ "/" ++ rest) relativeTo := by
  have h1 := pathToFileID_append relativeTo rest
  have h2 : fileIDToPath (String.mk ('.' :: '/' :: rest.data)) relativeTo
      = relativeTo ++ "/" ++ rest := by
    rw [fileIDToPath_marker, mk_data_append]
  constructor
  · rw [h1, h2]
  · rw [h1, h2, h1]

/-- C10: with the syntactically ordinary collection name `"nes"` — a bare word
that does not parse as a SQL expression over the table's columns — both
`addMissingFiles` and `updateExists` fail at statement preparation, for every
store, filesystem and directory tree, and the store is returned unchanged:
nothing was read or written. -/
theorem interpolated_name_prepare_error (relativeTo : String) (extensions : List String)
    (entries : FSList) (faults ufaults : List Nat) (fsList : List String) (st : Store) :
    addMissingFiles "nes" relativeTo extensions entries faults st
        = (Except.error DBErr.prepare, st)
  ∧ updateExists "nes" relativeTo fsList ufaults st = (Except.error DBErr.prepare, st) := by
  have h : classifySplice "nes" = SpliceExpr.malformed := by decide
  constructor <;> simp [addMissingFiles, updateExists, h]

/-- C2 (code bug): `getFileData` has its row-presence check inverted. On a
store holding exactly the row keyed `("./a.nes", "3")`, looking that key up
throws the step error (the point `SELECT` yields `SQLITE_ROW`, but line 299
demands `SQLITE_DONE`), while on an empty store the same lookup raises no
not-found error at all and completes. -/
theorem getFileData_inverted_check :
    getFileData "./a.nes" "3" [bareRow "./a.nes" "3" FileType_GAME] = Except.error DBErr.step
  ∧ (getFileData "./a.nes" "3" ([] : Store)).isOk = true := ⟨rfl, rfl⟩

/-- C3 (code bug): scanning the `/roms/nes` scenario inserts the qualifying
subdirectory `sub`, but its row carries the game discriminator, because
`add_file` binds `FileType::GAME` (line 191) instead of its `filetype`
argument — even though the two discriminator values are distinct. -/
theorem folder_row_stored_as_game :
    lookupRow (addMissingFiles "3" "/roms/nes" [".nes"] nesEntries [] []).2 "./sub" "3"
        = some (bareRow "./sub" "3" FileType_GAME)
  ∧ FileType_GAME ≠ FileType_FOLDER := ⟨rfl, by decide⟩

/-- C4 (counterexample): scanning the spec's `/roms/nes` scenario does not
produce records for exactly `a.nes`, `sub/b.nes` and `sub` with none for the
root: the produced identifiers are the marker-prefixed `./a.nes`, `./sub/b.nes`
and `./sub` — and additionally `/roms/nes`, a record for the collection root
directory itself, inserted by the top-level `populate_recursive` call
(lines 227–232). -/
theorem scan_inserts_root_record :
    ((addMissingFiles "3" "/roms/nes" [".nes"] nesEntries [] []).2.map Row.fileid)
        = ["./a.nes", "./sub/b.nes", "./sub", "/roms/nes"]
  ∧ ((addMissingFiles "3" "/roms/nes" [".nes"] nesEntries [] []).2.map Row.fileid).contains
        "/roms/nes" = true := ⟨rfl, rfl⟩

/-- C4 (amended): scanning the `/roms/nes` scenario with allowlist `{.nes}`
produces exactly four records — `./a.nes`, `./sub/b.nes`, `./sub`, and the
collection root itself under its unrelativized path `/roms/nes` — and, because
`add_file` ignores its kind argument, every one of them carries the game
discriminator. -/
theorem scan_scenario_exact :
    addMissingFiles "3" "/roms/nes" [".nes"] nesEntries [] []
      = (Except.ok (),
         [bareRow "./a.nes" "3" FileType_GAME,
          bareRow "./sub/b.nes" "3" FileType_GAME,
          bareRow "./sub" "3" FileType_GAME,
          bareRow "/roms/nes" "3" FileType_GAME]) := rfl

/-- C5 (code bug): writing a record through `setFileData` and reading the same
key back through `getFileData` does not return the record — it throws, because
`getFileData` expects `SQLITE_DONE` from a `SELECT` that now yields the row. -/
theorem put_then_get_throws :
    getFileData "./a.nes" "3"
        (setFileData "./a.nes" "3"
          ((MetaDataMap.init MetaDataListType.game_metadata).set "name" "Alpha") [])
      = Except.error DBErr.step := rfl

/-- C1 (counterexample): a step failure after the transaction has begun does
not leave the store equal to its contents before the operation. Scanning a
flat directory with `a.nes` and `b.nes` into an empty store with the second
insert step failing propagates the error, yet the store afterwards is not the
initial empty store: it holds the committed row for `./a.nes`. -/
theorem failed_scan_commits_partial :
    (addMissingFiles "3" "/roms/nes" [".nes"] flatEntries [1] []).1 = Except.error DBErr.step
  ∧ (addMissingFiles "3" "/roms/nes" [".nes"] flatEntries [1] []).2 ≠ ([] : Store)
  ∧ (addMissingFiles "3" "/roms/nes" [".nes"] flatEntries [1] []).2
      = [bareRow "./a.nes" "3" FileType_GAME] := ⟨rfl, by decide, rfl⟩

/-- C1 (amended): for both mutating multi-step operations — scan population
via `addMissingFiles` and existence refresh via `updateExists` — when a step
fails after the transaction has begun, the error still propagates, but the
transaction is committed — not aborted — by `SQLTransaction`'s destructor
during unwinding: the store afterwards equals the partially updated
transaction state at the failure point, so every write made before the
failing step is visible to subsequent readers. -/
theorem error_path_commits_transaction
    (nameA nameU relativeTo : String) (extensions : List String) (entries : FSList)
    (faultsA faultsU : List Nat) (fsList : List String)
    (stA0 stA stU0 stU : Store) (canonA : String) (eU : SpliceExpr) (cA cU : Nat)
    (hA1 : classifySplice nameA = SpliceExpr.literal canonA)
    (hA2 : populate_recursive relativeTo extensions canonA faultsA relativeTo entries stA0 0
        = Except.error (stA, cA))
    (hU1 : classifySplice nameU = eU)
    (hU2 : eU ≠ SpliceExpr.malformed)
    (hU3 : updateLoop eU relativeTo fsList faultsU
        ((stU0.filter (spliceMatch eU)).map Row.fileid) stU0 0 = Except.error (stU, cU)) :
    addMissingFiles nameA relativeTo extensions entries faultsA stA0
        = (Except.error DBErr.step, stA)
  ∧ updateExists nameU relativeTo fsList faultsU stU0 = (Except.error DBErr.step, stU) := by
  constructor
  · simp [addMissingFiles, hA1, hA2]
  · cases eU with
    | malformed => exact absurd rfl hU2
    | literal canon => simp [updateExists, hU1, hU3]
    | column c => simp [updateExists, hU1, hU3]

/-- Witness for the amended C1 theorem. Scan half: the flat two-file scenario
with the second insert step failing leaves the committed `./a.nes` row behind.
Refresh half: two rows of collection `"3"` with the second `UPDATE` step
failing leave the first row's freshly written flag committed while the error
propagates. -/
theorem error_path_commits_transaction_witness :
    (classifySplice "3" = SpliceExpr.literal "3"
  ∧ populate_recursive "/roms/nes" [".nes"] "3" [1] "/roms/nes" flatEntries [] 0
      = Except.error ([bareRow "./a.nes" "3" FileType_GAME], 2)
  ∧ updateLoop (SpliceExpr.literal "3") "/roms/nes" ["/roms/nes/a.nes"] [1]
        (([bareRow "./a.nes" "3" FileType_GAME,
           bareRow "./gone.nes" "3" FileType_GAME].filter
            (spliceMatch (SpliceExpr.literal "3"))).map Row.fileid)
        [bareRow "./a.nes" "3" FileType_GAME, bareRow "./gone.nes" "3" FileType_GAME] 0
      = Except.error
          ([{ bareRow "./a.nes" "3" FileType_GAME with fileexists := some true },
            bareRow "./gone.nes" "3" FileType_GAME], 2))
  ∧ (addMissingFiles "3" "/roms/nes" [".nes"] flatEntries [1] []
        = (Except.error DBErr.step, [bareRow "./a.nes" "3" FileType_GAME])
  ∧ updateExists "3" "/roms/nes" ["/roms/nes/a.nes"] [1]
        [bareRow "./a.nes" "3" FileType_GAME, bareRow "./gone.nes" "3" FileType_GAME]
      = (Except.error DBErr.step,
         [{ bareRow "./a.nes" "3" FileType_GAME with fileexists := some true },
          bareRow "./gone.nes" "3" FileType_GAME])) :=
  ⟨⟨rfl, rfl, rfl⟩,
   error_path_commits_transaction "3" "3" "/roms/nes" [".nes"] flatEntries [1] [1]
     ["/roms/nes/a.nes"] []
     [bareRow "./a.nes" "3" FileType_GAME]
     [bareRow "./a.nes" "3" FileType_GAME, bareRow "./gone.nes" "3" FileType_GAME]
     [{ bareRow "./a.nes" "3" FileType_GAME with fileexists := some true },
      bareRow "./gone.nes" "3" FileType_GAME]
     "3" (SpliceExpr.literal "3") 2 2 rfl rfl rfl (by decide) rfl⟩

/-- Characterization of a fault-free existence-refresh loop under a literal
splice: running the per-row `UPDATE` once for each selected identifier equals
a single pass that rewrites the flag of every row whose `systemid` equals the
literal's text and whose identifier was selected, leaving all other columns
and all other rows untouched. -/
lemma updateLoop_literal_eq_map (canon relativeTo : String) (fsList : List String)
    (fids : List String) (st : Store) (ctr : Nat) :
    updateLoop (SpliceExpr.literal canon) relativeTo fsList [] fids st ctr =
      Except.ok
        (st.map (fun r =>
          if r.systemid == canon && fids.contains r.fileid
          then { r with fileexists := some (existsCheckFileID fsList relativeTo r.fileid) }
          else r),
         ctr + fids.length) := by
  induction fids generalizing st ctr with
  | nil => simp [updateLoop]
  | cons fid rest ih =>
    have hc : ([] : List Nat).contains ctr = false := rfl
    simp only [updateLoop, hc, Bool.false_eq_true, if_false]
    rw [ih]
    have hmap : (updateRow (SpliceExpr.literal canon) fid
          (existsCheckFileID fsList relativeTo fid) st).map
        (fun r =>
          if r.systemid == canon && rest.contains r.fileid
          then { r with fileexists := some (existsCheckFileID fsList relativeTo r.fileid) }
          else r)
      = st.map (fun r =>
          if r.systemid == canon && (fid :: rest).contains r.fileid
          then { r with fileexists := some (existsCheckFileID fsList relativeTo r.fileid) }
          else r) := by
      simp only [updateRow, spliceMatch, List.map_map]
      apply List.map_congr_left
      intro r _
      by_cases hf : r.fileid = fid
      · by_cases hs : r.systemid = canon
        · simp [Function.comp, hf, hs, List.contains_cons, ite_self]
        · simp [Function.comp, hf, hs, List.contains_cons]
      · by_cases hs : r.systemid = canon
        · simp [Function.comp, hf, hs, List.contains_cons]
        · simp [Function.comp, hf, hs, List.contains_cons]
    rw [hmap]
    have harith : ctr + 1 + rest.length = ctr + (fid :: rest).length := by
      simp [List.length_cons]
      omega
    rw [harith]

/-- C6 (counterexample): for a collection named after a column of the table
the refresh statements prepare and the run completes, but the claim fails.
With collection name `"fileid"` the spliced comparison `systemid = fileid`
compares the two key columns row against row, so the collection's own record
(`systemid = "fileid"`, `fileid = "./a.nes"`) is never selected: `updateExists`
succeeds, the store is returned unchanged, and the record keeps its stale
`false` flag although the filesystem existence of its resolved path is
`true`. -/
theorem updateExists_column_name_misselects :
    updateExists "fileid" "/roms/nes" ["/roms/nes/a.nes"] []
        [{ bareRow "./a.nes" "fileid" FileType_GAME with fileexists := some false }]
      = (Except.ok (),
         [{ bareRow "./a.nes" "fileid" FileType_GAME with fileexists := some false }])
  ∧ ({ bareRow "./a.nes" "fileid" FileType_GAME with fileexists := some false }).systemid
      = "fileid"
  ∧ existsCheckFileID ["/roms/nes/a.nes"] "/roms/nes" "./a.nes" = true
  ∧ ({ bareRow "./a.nes" "fileid" FileType_GAME with fileexists := some false }).fileexists
      ≠ some true := ⟨rfl, rfl, rfl, by decide⟩

/-- C6 (amended): when the collection's name is spliced as a self-denoting
literal — the name prepares as a literal whose affinity-canonical text is the
name itself, as for a canonical decimal numeral — a fault-free run of
`updateExists` succeeds and transforms the store into exactly the same rows in
the same order, with only the existence flag of the named collection's rows
rewritten — each set to the filesystem existence of the row's resolved path
(marker-prefixed identifiers joined to the collection root, others checked
as-is); no row is added, deleted, or otherwise changed. (For a name that is
instead a column of the table the statements prepare but compare `systemid`
against that column, refreshing the wrong rows; for an unresolvable or
malformed name the operation throws at preparation with the store
unchanged.) -/
theorem updateExists_refreshes_flags_only (name relativeTo : String) (fsList : List String)
    (st : Store) (hn : classifySplice name = SpliceExpr.literal name) :
    updateExists name relativeTo fsList [] st =
      (Except.ok (), st.map (fun r =>
        if r.systemid == name
        then { r with fileexists := some (existsCheckFileID fsList relativeTo r.fileid) }
        else r)) := by
  simp only [updateExists, hn]
  rw [updateLoop_literal_eq_map]
  refine congrArg (fun s => (Except.ok (), s)) ?_
  apply List.map_congr_left
  intro r hr
  by_cases hs : r.systemid = name
  · have hmem : ((st.filter (spliceMatch (SpliceExpr.literal name))).map Row.fileid).contains
        r.fileid = true := by
      apply List.elem_iff.mpr
      exact List.mem_map.mpr ⟨r, List.mem_filter.mpr ⟨hr, by simp [spliceMatch, hs]⟩, rfl⟩
    have hsb : (r.systemid == name) = true := by simp [hs]
    rw [hsb, hmem]
    simp
  · simp [hs]

/-- Witness for the amended C6 theorem: a store holding two rows of the
numeral-named collection `"3"` (one backed by a file on disk, one not) and
one row of another collection; the fault-free refresh sets the first flag
true, the second false, and leaves the foreign row alone. -/
theorem updateExists_refreshes_flags_only_witness :
    classifySplice "3" = SpliceExpr.literal "3"
  ∧ updateExists "3" "/roms/nes" ["/roms/nes/a.nes"] []
        [bareRow "./a.nes" "3" FileType_GAME, bareRow "./gone.nes" "3" FileType_GAME,
         bareRow "/abs/x.nes" "7" FileType_GAME]
      = (Except.ok (),
         [bareRow "./a.nes" "3" FileType_GAME, bareRow "./gone.nes" "3" FileType_GAME,
          bareRow "/abs/x.nes" "7" FileType_GAME].map (fun r =>
            if r.systemid == "3"
            then { r with
                    fileexists := some (existsCheckFileID ["/roms/nes/a.nes"] "/roms/nes" r.fileid) }
            else r)) :=
  ⟨by decide,
   updateExists_refreshes_flags_only "3" "/roms/nes" ["/roms/nes/a.nes"]
     [bareRow "./a.nes" "3" FileType_GAME, bareRow "./gone.nes" "3" FileType_GAME,
      bareRow "/abs/x.nes" "7" FileType_GAME] (by decide)⟩

/-- C7: the scanner's `INSERT OR IGNORE` is idempotent on its key. A second
insert with the same `(fileid, systemid)` — even with a different kind
argument — leaves the store exactly as it was after the first; and on a store
already holding the key, the insert is a no-op, never overwriting the existing
row's metadata. -/
theorem insert_ignore_idempotent (st : Store) (fid sid : String) (ft ft' : Nat) :
    insertOrIgnore (insertOrIgnore st fid sid ft) fid sid ft' = insertOrIgnore st fid sid ft
  ∧ ((lookupRow st fid sid).isSome = true → insertOrIgnore st fid sid ft' = st) := by
  constructor
  · cases h : lookupRow st fid sid with
    | some r => simp [insertOrIgnore, h]
    | none =>
      have hfind : lookupRow (st ++ [bareRow fid sid ft]) fid sid
          = some (bareRow fid sid ft) := by
        unfold lookupRow at h ⊢
        rw [List.find?_append, h]
        simp [List.find?_cons, rowMatches, bareRow]
      simp [insertOrIgnore, h, hfind]
  · intro hsome
    cases h : lookupRow st fid sid with
    | some r => simp [insertOrIgnore, h]
    | none => rw [h] at hsome; simp at hsome

/-- Witness for C7: inserting `("./a.nes", "3")` twice into an empty store,
the second time with the folder kind, equals the single insert; and on the
store already holding the bare row, a repeated insert returns it unchanged. -/
theorem insert_ignore_idempotent_witness :
    insertOrIgnore (insertOrIgnore [] "./a.nes" "3" FileType_GAME) "./a.nes" "3" FileType_FOLDER
        = insertOrIgnore [] "./a.nes" "3" FileType_GAME
  ∧ ((lookupRow [bareRow "./a.nes" "3" FileType_GAME] "./a.nes" "3").isSome = true
  ∧ insertOrIgnore [bareRow "./a.nes" "3" FileType_GAME] "./a.nes" "3" FileType_FOLDER
      = [bareRow "./a.nes" "3" FileType_GAME]) :=
  ⟨(insert_ignore_idempotent [] "./a.nes" "3" FileType_GAME FileType_FOLDER).1,
   ⟨rfl,
    (insert_ignore_idempotent [bareRow "./a.nes" "3" FileType_GAME] "./a.nes" "3"
      FileType_GAME FileType_FOLDER).2 rfl⟩⟩

/-- C8: importing a document with two game nodes — one whose path resolves to
a file on disk, one whose path does not — succeeds, writes exactly the one
record for the existing path through the full-replace `setFileData`, and
reports a skip count of exactly one. -/
theorem import_skips_missing_path (name relativeTo : String) (fsList : List String)
    (st : Store) (n1 n2 : XMLNode)
    (h1 : n1.tag = "game") (h2 : n2.tag = "game")
    (hex : fs_exists fsList (resolvePath n1.path relativeTo) = true)
    (hnex : fs_exists fsList (resolvePath n2.path relativeTo) = false)
    (hname : ((buildMetaData MetaDataListType.game_metadata relativeTo n1.fields).get
        "name").isEmpty = false) :
    importXML name relativeTo fsList [n1, n2] st
      = Except.ok
          (setFileData (pathToFileID (resolvePath n1.path relativeTo) relativeTo) name
            (buildMetaData MetaDataListType.game_metadata relativeTo n1.fields) st, 1) := by
  simp [importXML, importNodes, h1, h2, hex, hnex, hname]

/-- Witness for C8: document with game nodes for `./a.nes` (present on disk,
named "Alpha") and `./b.nes` (absent); the import writes the one record and
reports one skip. -/
theorem import_skips_missing_path_witness :
    ((XMLNode.mk "game" "./a.nes" [("name", "Alpha")]).tag = "game"
  ∧ (XMLNode.mk "game" "./b.nes" []).tag = "game"
  ∧ fs_exists ["/roms/nes/a.nes"] (resolvePath "./a.nes" "/roms/nes") = true
  ∧ fs_exists ["/roms/nes/a.nes"] (resolvePath "./b.nes" "/roms/nes") = false
  ∧ ((buildMetaData MetaDataListType.game_metadata "/roms/nes" [("name", "Alpha")]).get
        "name").isEmpty = false)
  ∧ importXML "nes" "/roms/nes" ["/roms/nes/a.nes"]
        [XMLNode.mk "game" "./a.nes" [("name", "Alpha")], XMLNode.mk "game" "./b.nes" []] []
      = Except.ok
          (setFileData (pathToFileID (resolvePath "./a.nes" "/roms/nes") "/roms/nes") "nes"
            (buildMetaData MetaDataListType.game_metadata "/roms/nes" [("name", "Alpha")]) [],
           1) :=
  ⟨⟨rfl, rfl, by decide, by decide, by decide⟩,
   import_skips_missing_path "nes" "/roms/nes" ["/roms/nes/a.nes"] []
     (XMLNode.mk "game" "./a.nes" [("name", "Alpha")]) (XMLNode.mk "game" "./b.nes" [])
     rfl rfl (by decide) (by decide) (by decide)⟩

end GamelistDB
